import Mathlib

/-!
Verification of the pest-risk advisory pipeline of this repository.

The repository contains two Streamlit application variants:
* `app.py` — resolves a (district, taluka, village) selection to coordinates,
  derives a synthetic feature vector from the coordinates with a seeded
  pseudo-random generator (`generate_features`), scores it with
  `model.predict_proba(features)[0][1]`, and applies the fixed threshold
  `THRESHOLD = 0.35` to obtain a binary verdict with advisory text;
* an unnamed earlier variant (`part_000`) — resolves the village by filtering
  on the village column alone and replaces the model by a mock rule that maps
  the crop directly to a verdict.

Python floats are embedded as rationals (ℚ), the numpy global random
generator as an explicit state threaded through the definitions, raising
Python code as `Except`/`Option`-valued functions, and the pandas location
table as a list of records.
-/

/-- Binary verdict shown by the results section of the app. -/
inductive Verdict where
  | NoRisk
  | Risk
  deriving DecidableEq, Repr

/-- The policy constant of `app.py` line 146: `THRESHOLD = 0.35`. -/
def THRESHOLD : ℚ := 35 / 100

/-- `app.py` line 147: `pest_risk = int(prob >= THRESHOLD)`. -/
def pest_risk (prob : ℚ) : ℤ :=
  if prob ≥ THRESHOLD then 1 else 0

/-- The results branch of `app.py` lines 156-167: `pest_risk == 0` selects the
no-risk advisory, anything else the risk advisory. -/
def decide_verdict (prob : ℚ) : Verdict :=
  if pest_risk prob = 0 then Verdict.NoRisk else Verdict.Risk

/-- Model of the numpy legacy global generator used by `app.py`.  The state
type `σ` is abstract; `seed` models `np.random.seed` (re-initialising the
process-wide state from an integer), and `next` models one call to
`random_sample`, the uniform draw on `[0, 1)` underlying
`np.random.uniform`. -/
structure NumpyRNG (σ : Type) where
  seed : ℕ → σ
  next : σ → ℚ × σ
  next_mem : ∀ g : σ, 0 ≤ (next g).1 ∧ (next g).1 < 1

/-- `np.random.uniform(low, high)`: `low + (high - low) * random_sample()`. -/
def NumpyRNG.uniform {σ : Type} (R : NumpyRNG σ) (low high : ℚ) (g : σ) : ℚ × σ :=
  let p := R.next g
  (low + (high - low) * p.1, p.2)

/-- `app.py` lines 48-62.  `g` is the process-wide numpy global random state
when the call starts; the returned state is its value after the call.

    seed = int(abs(lat * lon) * 1000) % 10000
    np.random.seed(seed)
    rainfall = np.random.uniform(50, 200)
    temperature = np.random.uniform(22, 38)
    humidity = np.random.uniform(45, 90)
    ndvi = np.random.uniform(0.25, 0.85)
    return np.array([[rainfall, temperature, humidity, ndvi]])
-/
def generate_features {σ : Type} (R : NumpyRNG σ) (lat lon : ℚ) (g : σ) :
    List (List ℚ) × σ :=
  let sd : ℕ := (Int.toNat ⌊|lat * lon| * 1000⌋) % 10000
  let g1 := R.seed sd
  let p1 := R.uniform 50 200 g1
  let p2 := R.uniform 22 38 p1.2
  let p3 := R.uniform 45 90 p2.2
  let p4 := R.uniform (25 / 100) (85 / 100) p3.2
  ([[p1.1, p2.1, p3.1, p4.1]], p4.2)

/-- The seed formula as the spec states it:
`floor(|latitude * longitude| * 1000) mod 10000`. -/
def spec_seed (lat lon : ℚ) : ℕ :=
  (Int.toNat ⌊|lat * lon| * 1000⌋) % 10000

/-- The four draw bounds in the order the spec fixes:
[rainfall, temperature, humidity, ndvi]. -/
def spec_bounds : List (ℚ × ℚ) :=
  [(50, 200), (22, 38), (45, 90), (25 / 100, 85 / 100)]

/-- Draw one uniform sample per (low, high) pair, in list order, threading the
generator state left to right. -/
def spec_draws {σ : Type} (R : NumpyRNG σ) : List (ℚ × ℚ) → σ → List ℚ × σ
  | [], g => ([], g)
  | (low, high) :: rest, g =>
    let p := R.uniform low high g
    let q := spec_draws R rest p.2
    (p.1 :: q.1, q.2)

/-- The feature generator written from the spec words: seed the generator with
`spec_seed`, then draw the four samples of `spec_bounds` in order. -/
def generate_spec {σ : Type} (R : NumpyRNG σ) (lat lon : ℚ) : List ℚ × σ :=
  spec_draws R spec_bounds (R.seed (spec_seed lat lon))

/-- A concrete instantiation of the generator model, used to evaluate the
theorems on closed inputs: the state is a counter, seeding stores the seed,
and every draw returns 1/2 and advances the counter. -/
def stepRNG : NumpyRNG ℕ where
  seed := fun n => n
  next := fun g => (1 / 2, g + 1)
  next_mem := fun g => by norm_num

/-- A crop model as loaded by `load_models` in `app.py`: an opaque trained
binary classifier object.  `predict_proba` is the method the app invokes;
`decision_function` and `predict` are the other capabilities such an object
may expose (the app never calls them).  A method that raises is modelled as
returning `Except.error` with the Python exception name. -/
structure Classifier where
  predict_proba : List (List ℚ) → Except String (List (List ℚ))
  decision_function : List (List ℚ) → Except String (List ℚ)
  predict : List (List ℚ) → Except String (List ℚ)

/-- The scoring of one model in `app.py` lines 141-144:
`prob = model.predict_proba(features)[0][1]`.  An out-of-range `[0]` or `[1]`
is the Python `IndexError`; there is no `try/except` around the call, so an
error from `predict_proba` flows through. -/
def score (model : Classifier) (features : List (List ℚ)) : Except String ℚ :=
  match model.predict_proba features with
  | Except.error e => Except.error e
  | Except.ok rows =>
    match rows with
    | [] => Except.error "IndexError"
    | row :: _ =>
      match row.get? 1 with
      | none => Except.error "IndexError"
      | some v => Except.ok v

/-- A classifier whose invocation raises (any method). -/
def raisingClassifier : Classifier where
  predict_proba := fun _ => Except.error "ValueError"
  decision_function := fun _ => Except.error "ValueError"
  predict := fun _ => Except.error "ValueError"

/-- A stub classifier exposing probability estimation together with a
decision-score capability and a label capability. -/
def probaStub : Classifier where
  predict_proba := fun _ => Except.ok [[3 / 10, 7 / 10]]
  decision_function := fun _ => Except.ok [5]
  predict := fun _ => Except.ok [0]

/-- Same probability method as `probaStub`, but a decision-score method and a
label method that would be distinguishable if ever invoked. -/
def probaStub' : Classifier where
  predict_proba := fun _ => Except.ok [[3 / 10, 7 / 10]]
  decision_function := fun _ => Except.error "AttributeError"
  predict := fun _ => Except.ok [1]

/-- One row of `locations.csv` as loaded by the apps. -/
structure LocRecord where
  district : String
  taluka : String
  village : String
  lat : ℚ
  lon : ℚ
  deriving DecidableEq, Repr

/-- `app.py` lines 113-119: filter the table on district, taluka and village
and take `.iloc[0]`; `none` models the `IndexError` raised when no row
matches (the `NotFoundError` of the spec). -/
def loc_row (locations : List LocRecord) (district taluka village : String) :
    Option LocRecord :=
  (locations.filter fun r =>
    r.district == district && r.taluka == taluka && r.village == village).head?

/-- `part_000` line 76: `locations[locations["village"] == village].iloc[0]` —
this variant filters on the village column alone. -/
def loc_row_v0 (locations : List LocRecord) (village : String) :
    Option LocRecord :=
  (locations.filter fun r => r.village == village).head?

/-- The `app.py` risk-check path: resolve the location (lines 113-119), then,
on the button press, generate the features (line 139), score the selected
crop's model (lines 141-144) and threshold the probability (lines 146-147).
`Except.error` models the script run aborting with the corresponding Python
exception; on success the handler yields the displayed probability, the
`pest_risk` flag and the global random state after the run. -/
def app_handler {σ : Type} (R : NumpyRNG σ) (locations : List LocRecord)
    (crop district taluka village : String)
    (rice_model cotton_model : Classifier) (g : σ) :
    Except String (ℚ × ℤ × σ) :=
  match loc_row locations district taluka village with
  | none => Except.error "NotFoundError"
  | some row =>
    let fg := generate_features R row.lat row.lon g
    match (if crop = "Rice" then score rice_model fg.1 else score cotton_model fg.1) with
    | Except.error e => Except.error e
    | Except.ok prob => Except.ok (prob, pest_risk prob, fg.2)

/-- Advisory bundle displayed by the results sections: the "continue regular
monitoring" message or the IPM action list. -/
inductive Advisory where
  | monitor
  | ipmActions
  deriving DecidableEq, Repr

/-- `part_000` lines 93-124: the mock prediction of the earlier variant.  The
verdict comes from the crop alone (lines 100-103) and the display branches on
it (lines 110-124); no feature vector and no probability exist on this path,
and the global random state `g` is untouched. -/
def check_v0 {σ : Type} (crop district taluka village phone : String) (g : σ) :
    (ℤ × Advisory) × σ :=
  let pr : ℤ := if crop = "Rice" then 0 else 1
  ((pr, if pr = 0 then Advisory.monitor else Advisory.ipmActions), g)

/-- A dataset in which the village name "Wadgaon" occurs under two different
(district, taluka) pairs. -/
def demoLocs : List LocRecord :=
  [⟨"Pune", "Haveli", "Wadgaon", 181 / 10, 739 / 10⟩,
   ⟨"Satara", "Karad", "Wadgaon", 172 / 10, 741 / 10⟩]

/-- Claim C1: the decision policy returns `Risk` exactly when the probability
is at least the named constant `THRESHOLD = 0.35`, and in particular
`decide(0.349999) = NoRisk`, `decide(0.35) = Risk`, `decide(1.0) = Risk`,
`decide(0.0) = NoRisk`. -/
theorem decide_verdict_risk_iff_threshold :
    (∀ p : ℚ, decide_verdict p = Verdict.Risk ↔ p ≥ THRESHOLD)
    ∧ THRESHOLD = 35 / 100
    ∧ decide_verdict (349999 / 1000000) = Verdict.NoRisk
    ∧ decide_verdict (35 / 100) = Verdict.Risk
    ∧ decide_verdict 1 = Verdict.Risk
    ∧ decide_verdict 0 = Verdict.NoRisk := by
  refine ⟨?_, rfl, ?_, ?_, ?_, ?_⟩
  · intro p
    by_cases h : p ≥ THRESHOLD <;> simp [decide_verdict, pest_risk, h]
  all_goals norm_num [decide_verdict, pest_risk, THRESHOLD]

/-- Every uniform draw lies in the closed interval of its bounds. -/
theorem uniform_mem_Icc {σ : Type} (R : NumpyRNG σ) (low high : ℚ)
    (hlh : low ≤ high) (g : σ) :
    low ≤ (R.uniform low high g).1 ∧ (R.uniform low high g).1 ≤ high := by
  obtain ⟨h0, h1⟩ := R.next_mem g
  show low ≤ low + (high - low) * (R.next g).1
    ∧ low + (high - low) * (R.next g).1 ≤ high
  constructor <;> nlinarith

/-- Claim C2: `generate_features` is deterministic in `(lat, lon)`: two
invocations with the same pair produce identical feature vectors, whatever
the incoming global random state of each invocation is. -/
theorem generate_features_deterministic {σ : Type} (R : NumpyRNG σ)
    (lat lon : ℚ) (g g' : σ) :
    (generate_features R lat lon g).1 = (generate_features R lat lon g').1 :=
  rfl

/-- Claim C2 witness: evaluated at the concrete generator model, at
`(lat, lon) = (19, 73)`, from two different incoming states. -/
theorem generate_features_deterministic_witness :
    (generate_features stepRNG 19 73 0).1 = (generate_features stepRNG 19 73 5).1 :=
  generate_features_deterministic stepRNG 19 73 0 5

/-- Claim C3: `generate_features` refines the spec algorithm: it seeds the
generator with `floor(|lat * lon| * 1000) mod 10000` and draws exactly four
uniform samples in the order [rainfall, temperature, humidity, ndvi],
returning them in that order (as the single row of a 1 × 4 array), and leaves
the generator in the state after those four draws. -/
theorem generate_features_refines_spec {σ : Type} (R : NumpyRNG σ)
    (lat lon : ℚ) (g : σ) :
    (generate_features R lat lon g).1 = [(generate_spec R lat lon).1]
    ∧ (generate_features R lat lon g).2 = (generate_spec R lat lon).2 :=
  ⟨rfl, rfl⟩

/-- Claim C3 witness: the refinement evaluated at the concrete generator
model and `(lat, lon) = (19, 73)`. -/
theorem generate_features_refines_spec_witness :
    (generate_features stepRNG 19 73 0).1 = [(generate_spec stepRNG 19 73).1]
    ∧ (generate_features stepRNG 19 73 0).2 = (generate_spec stepRNG 19 73).2 :=
  generate_features_refines_spec stepRNG 19 73 0

/-- Claim C4: every field of the generated feature vector lies in its
documented closed interval: rainfall in [50, 200], temperature in [22, 38],
humidity in [45, 90], ndvi in [0.25, 0.85]. -/
theorem generate_features_bounds {σ : Type} (R : NumpyRNG σ)
    (lat lon : ℚ) (g : σ) :
    ∃ rainfall temperature humidity ndvi : ℚ,
      (generate_features R lat lon g).1 = [[rainfall, temperature, humidity, ndvi]]
      ∧ 50 ≤ rainfall ∧ rainfall ≤ 200
      ∧ 22 ≤ temperature ∧ temperature ≤ 38
      ∧ 45 ≤ humidity ∧ humidity ≤ 90
      ∧ 25 / 100 ≤ ndvi ∧ ndvi ≤ 85 / 100 := by
  refine ⟨_, _, _, _, rfl, ?_⟩
  have h1 := uniform_mem_Icc R 50 200 (by norm_num)
  have h2 := uniform_mem_Icc R 22 38 (by norm_num)
  have h3 := uniform_mem_Icc R 45 90 (by norm_num)
  have h4 := uniform_mem_Icc R (25 / 100) (85 / 100) (by norm_num)
  exact ⟨(h1 _).1, (h1 _).2, (h2 _).1, (h2 _).2, (h3 _).1, (h3 _).2,
    (h4 _).1, (h4 _).2⟩

/-- Claim C4 witness: the bounds evaluated at the concrete generator model. -/
theorem generate_features_bounds_witness :
    ∃ rainfall temperature humidity ndvi : ℚ,
      (generate_features stepRNG 19 73 0).1 = [[rainfall, temperature, humidity, ndvi]]
      ∧ 50 ≤ rainfall ∧ rainfall ≤ 200
      ∧ 22 ≤ temperature ∧ temperature ≤ 38
      ∧ 45 ≤ humidity ∧ humidity ≤ 90
      ∧ 25 / 100 ≤ ndvi ∧ ndvi ≤ 85 / 100 :=
  generate_features_bounds stepRNG 19 73 0

/-- Claim C7 counterexample: `generate_features` does mutate the process-wide
global random state.  At the concrete generator model, calling it at
`(19, 73)` from global state `0` leaves the global state at `7004`
(re-seeded with `|19 * 73| * 1000 mod 10000 = 7000`, then advanced by the
four draws), not at `0`. -/
theorem generate_features_mutates_global_state :
    (generate_features stepRNG 19 73 0).2 = 7004
    ∧ (generate_features stepRNG 19 73 0).2 ≠ 0 := by
  have h : (generate_features stepRNG 19 73 0).2 = 7004 := by
    norm_num [generate_features, NumpyRNG.uniform, stepRNG]
    decide
  exact ⟨h, by rw [h]; norm_num⟩

/-- Claim C7 amended: the result of `generate_features` never reads the
incoming global random state (the call re-seeds the shared generator first,
so the whole outcome, post-call state included, is independent of the prior
state) — but the generator is the shared process-wide one, which the call
leaves re-seeded and advanced, not a locally scoped one. -/
theorem generate_features_overwrites_global_state {σ : Type} (R : NumpyRNG σ)
    (lat lon : ℚ) (g g' : σ) :
    generate_features R lat lon g = generate_features R lat lon g' :=
  rfl

/-- Claim C7 amended witness: evaluated at the concrete generator model from
two different incoming states. -/
theorem generate_features_overwrites_global_state_witness :
    generate_features stepRNG 19 73 0 = generate_features stepRNG 19 73 5 :=
  generate_features_overwrites_global_state stepRNG 19 73 0 5

/-- The head of a filtered list is the first element satisfying the
predicate. -/
theorem filter_head?_eq_find? {α : Type} (p : α → Bool) (l : List α) :
    (l.filter p).head? = l.find? p := by
  induction l with
  | nil => rfl
  | cons a t ih =>
    cases h : p a <;> simp [List.filter_cons, List.find?_cons, h, ih]

/-- Claim C5 counterexample: with a classifier whose invocation raises, the
scorer propagates the error instead of returning a fallback probability —
there is no `try/except` around `predict_proba` in `app.py`. -/
theorem score_raising_counterexample :
    score raisingClassifier [[100, 30, 60, 1 / 2]] = Except.error "ValueError" :=
  rfl

/-- Claim C5 amended: when the classifier raises on invocation, `score`
propagates that very error to its caller; no synthetic fallback probability
is produced. -/
theorem score_propagates_error (m : Classifier) (features : List (List ℚ))
    (e : String) (h : m.predict_proba features = Except.error e) :
    score m features = Except.error e := by
  unfold score
  rw [h]

/-- Claim C5 amended witness: evaluated at the raising classifier. -/
theorem score_propagates_error_witness :
    score raisingClassifier [[0, 0, 0, 0]] = Except.error "ValueError" :=
  score_propagates_error raisingClassifier [[0, 0, 0, 0]] "ValueError" rfl

/-- Claim C6: the scorer uses the probability path: its result is a function
of the `predict_proba` method alone (two classifiers agreeing there score
identically, whatever their decision-score or label methods would return),
and for a two-class probability output it returns the mass at index 1. -/
theorem score_uses_probability_path (m m' : Classifier)
    (features : List (List ℚ)) (p0 p1 : ℚ)
    (hpp : m.predict_proba = m'.predict_proba)
    (hout : m.predict_proba features = Except.ok [[p0, p1]]) :
    score m features = score m' features ∧ score m features = Except.ok p1 := by
  constructor
  · unfold score
    rw [hpp]
  · unfold score
    rw [hout]
    rfl

/-- Claim C6 witness: two stub classifiers sharing the probability method but
differing in decision-score and label methods score identically, and the
score is the index-1 mass 7/10. -/
theorem score_uses_probability_path_witness :
    score probaStub [[0, 0, 0, 0]] = score probaStub' [[0, 0, 0, 0]]
    ∧ score probaStub [[0, 0, 0, 0]] = Except.ok (7 / 10) :=
  score_uses_probability_path probaStub probaStub' [[0, 0, 0, 0]]
    (3 / 10) (7 / 10) rfl rfl

/-- Claim C8: when no row of the dataset matches the selected
(district, taluka, village), the lookup fails (the `NotFoundError` of the
spec) and the handler aborts with it: no feature vector is generated and the
risk pipeline does not run. -/
theorem lookup_failure_aborts (locations : List LocRecord)
    (district taluka village : String)
    (h : ∀ r ∈ locations,
      ¬(r.district = district ∧ r.taluka = taluka ∧ r.village = village)) :
    loc_row locations district taluka village = none
    ∧ ∀ (σ : Type) (R : NumpyRNG σ) (crop : String)
        (rice_model cotton_model : Classifier) (g : σ),
        app_handler R locations crop district taluka village
          rice_model cotton_model g = Except.error "NotFoundError" := by
  have hrow : loc_row locations district taluka village = none := by
    unfold loc_row
    rw [filter_head?_eq_find?, List.find?_eq_none]
    intro r hr
    simpa using h r hr
  refine ⟨hrow, ?_⟩
  intro σ R crop rice_model cotton_model g
  unfold app_handler
  rw [hrow]

/-- Claim C8 witness: the village "Nandur" is absent from the demo dataset,
so the lookup and the whole handler fail with `NotFoundError`. -/
theorem lookup_failure_aborts_witness :
    (∀ r ∈ demoLocs,
      ¬(r.district = "Pune" ∧ r.taluka = "Haveli" ∧ r.village = "Nandur"))
    ∧ (loc_row demoLocs "Pune" "Haveli" "Nandur" = none
       ∧ ∀ (σ : Type) (R : NumpyRNG σ) (crop : String)
           (rice_model cotton_model : Classifier) (g : σ),
           app_handler R demoLocs crop "Pune" "Haveli" "Nandur"
             rice_model cotton_model g = Except.error "NotFoundError") := by
  have h : ∀ r ∈ demoLocs,
      ¬(r.district = "Pune" ∧ r.taluka = "Haveli" ∧ r.village = "Nandur") := by
    decide
  exact ⟨h, lookup_failure_aborts demoLocs "Pune" "Haveli" "Nandur" h⟩

/-- Claim C9: the `part_000` variant resolves the village by the village
column alone: it returns the first row whose village matches, whatever
district and taluka were selected — whereas the `app.py` variant returns the
first row matching all three keys.  Stated for every dataset in which the
same village name occurs under more than one (district, taluka). -/
theorem loc_row_v0_ignores_district_taluka (locations : List LocRecord)
    (district taluka village : String)
    (hdup : ∃ r1 r2, r1 ∈ locations ∧ r2 ∈ locations
      ∧ r1.village = village ∧ r2.village = village
      ∧ (r1.district ≠ r2.district ∨ r1.taluka ≠ r2.taluka)) :
    loc_row_v0 locations village = locations.find? (fun r => r.village == village)
    ∧ loc_row locations district taluka village
        = locations.find? (fun r =>
            r.district == district && r.taluka == taluka && r.village == village) := by
  exact ⟨filter_head?_eq_find? _ locations, filter_head?_eq_find? _ locations⟩

/-- Claim C9 witness: on the demo dataset, "Wadgaon" exists under both
(Pune, Haveli) and (Satara, Karad); with (Satara, Karad) selected, the
`part_000` lookup returns the Pune row (the first village match) while the
`app.py` lookup returns the Satara row. -/
theorem loc_row_v0_ignores_district_taluka_witness :
    (∃ r1 r2, r1 ∈ demoLocs ∧ r2 ∈ demoLocs
      ∧ r1.village = "Wadgaon" ∧ r2.village = "Wadgaon"
      ∧ (r1.district ≠ r2.district ∨ r1.taluka ≠ r2.taluka))
    ∧ (loc_row_v0 demoLocs "Wadgaon"
        = demoLocs.find? (fun r => r.village == "Wadgaon")
       ∧ loc_row demoLocs "Satara" "Karad" "Wadgaon"
          = demoLocs.find? (fun r =>
              r.district == "Satara" && r.taluka == "Karad" && r.village == "Wadgaon")) := by
  have hdup : ∃ r1 r2, r1 ∈ demoLocs ∧ r2 ∈ demoLocs
      ∧ r1.village = "Wadgaon" ∧ r2.village = "Wadgaon"
      ∧ (r1.district ≠ r2.district ∨ r1.taluka ≠ r2.taluka) := by
    refine ⟨⟨"Pune", "Haveli", "Wadgaon", 181 / 10, 739 / 10⟩,
      ⟨"Satara", "Karad", "Wadgaon", 172 / 10, 741 / 10⟩, ?_, ?_, rfl, rfl, ?_⟩
    · simp [demoLocs]
    · simp [demoLocs]
    · left
      decide
  exact ⟨hdup, loc_row_v0_ignores_district_taluka demoLocs "Satara" "Karad" "Wadgaon" hdup⟩

/-- Claim C10: in the `part_000` variant the verdict is a function of the
crop alone: Rice gives `pest_risk = 0` with the monitoring advisory and
Cotton gives `pest_risk = 1` with the IPM advisory, for every district,
taluka, village and phone input; the outcome is independent of all of them
and the path leaves the global random state untouched (no feature vector, no
probability is computed). -/
theorem check_v0_verdict_from_crop_alone {σ : Type}
    (crop district taluka village phone : String)
    (district' taluka' village' phone' : String) (g g' : σ) :
    (check_v0 "Rice" district taluka village phone g).1 = (0, Advisory.monitor)
    ∧ (check_v0 "Cotton" district taluka village phone g).1 = (1, Advisory.ipmActions)
    ∧ (check_v0 crop district taluka village phone g).1
        = (check_v0 crop district' taluka' village' phone' g').1
    ∧ (check_v0 crop district taluka village phone g).2 = g := by
  refine ⟨rfl, ?_, rfl, rfl⟩
  norm_num [check_v0]
  decide

/-- Claim C10 witness: evaluated at concrete selections and two different
random states. -/
theorem check_v0_verdict_from_crop_alone_witness :
    (check_v0 "Rice" "Pune" "Haveli" "Wadgaon" "9876543210" (0 : ℕ)).1
      = (0, Advisory.monitor)
    ∧ (check_v0 "Cotton" "Pune" "Haveli" "Wadgaon" "9876543210" (0 : ℕ)).1
      = (1, Advisory.ipmActions)
    ∧ (check_v0 "Cotton" "Pune" "Haveli" "Wadgaon" "9876543210" (0 : ℕ)).1
      = (check_v0 "Cotton" "Satara" "Karad" "Shirwal" "" (7 : ℕ)).1
    ∧ (check_v0 "Cotton" "Pune" "Haveli" "Wadgaon" "9876543210" (0 : ℕ)).2 = 0 :=
  check_v0_verdict_from_crop_alone "Cotton" "Pune" "Haveli" "Wadgaon" "9876543210"
    "Satara" "Karad" "Shirwal" "" 0 7
